import Mathlib

/-!
# Verification of `apps/mathorcam.cpp` (capture session state machine)

A shallow embedding of the control flow of `mathorcam.cpp`: the event loop
(`event_loop`), its per-iteration body (`loopStep`), the keyboard raw-mode
setup/restore pair, the metadata destination selection (`save_metadata`),
and the surrounding `main`.  Side-effecting collaborator calls
(camera lifecycle, GPIO, preview, jpeg encoding, terminal ioctls) are
recorded as an explicit trace of `Action`s, in exactly the order the source
issues them.  Machine time is modelled as `Int` (a clock reading); the
configured timeout as an `Int` that is "unset" exactly when it is `0`,
mirroring `TimeVal`'s boolean conversion (`value != 0`).
-/

namespace Mathorcam

/-- The two pipeline configurations; which one is active is observable in the
source through `app.ViewfinderStream()` / `app.StillStream()`. -/
inductive Mode where
  | Viewfinder
  | StillCapturing
deriving DecidableEq, Repr

/-- Message types delivered by `RPiCamApp::Msg`.  `RequestComplete` is the
spec's `FrameReady`.  `Unrecognised` stands for any value outside
`{Timeout, Quit, RequestComplete}` (the event space the spec's protocol-violation
branch at lines 132–134 defends against). -/
inductive MsgType where
  | Timeout
  | Quit
  | RequestComplete
  | Unrecognised
deriving DecidableEq, Repr

/-- `enum gpiod_line_value`: the value read from the GPIO line. -/
inductive LineValue where
  | error
  | inactive
  | active
deriving DecidableEq, Repr

/-- Destination chosen by `save_metadata`: `std::cout`'s buffer or a named file. -/
inductive MetaDest where
  | stdoutDest
  | fileDest (path : String)
deriving DecidableEq, Repr

/-- One observable call issued by the program, in source order.
`warnGpio` represents the user-visible warning that the spec requires on GPIO
acquisition failure; the source only has a `TODO` comment there, so no
definition below ever emits it. -/
inductive Action where
  | openCamera
  | configureViewfinder
  | configureStill
  | startCamera
  | stopCamera
  | teardown
  | closeCamera
  | showPreview
  | jpegSave
  | saveMetadata (dest : MetaDest)
  | logTimeoutError
  | printKey
  | readKey
  | readButton
  | gpioChipOpen
  | gpioLineRequest
  | gpioLineRelease
  | gpioChipClose
  | warnGpio
  | setupKeyboard
  | restoreKeyboard
deriving DecidableEq, Repr

/-- The option fields `event_loop`/`main` consult (`StillOptions`).
`timeout` models `TimeVal`: the option is considered set iff the value is
nonzero, matching `operator bool` (`value != 0`). -/
structure Options where
  timeout : Int
  metadata : String
  output : String
deriving DecidableEq, Repr

/-- Whether the GPIO chip open and the line request succeed at loop entry. -/
structure GpioEnv where
  chipAvailable : Bool
  lineAvailable : Bool
deriving DecidableEq, Repr

/-- The inputs one loop iteration consumes: the waited-for message, the
`high_resolution_clock` reading, the `get_keypress()` result (`0` = no key),
and the GPIO line value. -/
structure LoopInput where
  msg : MsgType
  now : Int
  key : Int
  button : LineValue
deriving DecidableEq, Repr

/-- Line 147: `options->Get().timeout && (now - start_time) > options->Get().timeout.value`. -/
def timeoutPassed (opts : Options) (startTime now : Int) : Bool :=
  decide (opts.timeout ≠ 0) && decide (now - startTime > opts.timeout)

/-- The timeout trigger as §4.1 of the spec words it: "(current time − session
start time) ≥ configured timeout, only if a timeout was configured".  Kept
separate from `timeoutPassed` (the source's strict `>`) for comparison. -/
def specTimeoutElapsed (opts : Options) (startTime now : Int) : Bool :=
  decide (opts.timeout ≠ 0) && decide (now - startTime ≥ opts.timeout)

/-- Lines 32–43: choose the metadata destination.  `filename.compare("-")`
is nonzero exactly when the name differs from `"-"`, in which case the stream
buffer is redirected to the named file; otherwise it stays `std::cout`. -/
def save_metadata (metadata : String) : MetaDest :=
  if metadata = "-" then MetaDest.stdoutDest else MetaDest.fileDest metadata

/-- How one iteration of the `for (;;)` loop ends. -/
inductive StepRes where
  | next (m : Mode)
  | brk
  | thrown
deriving DecidableEq, Repr

/-- Lines 118–196: one iteration of the event loop, given the active mode
(`ViewfinderStream()` vs `StillStream()`), producing the trace of calls the
iteration issues and how it ends. -/
def loopStep (opts : Options) (startTime : Int) (mode : Mode) (inp : LoopInput) :
    List Action × StepRes :=
  match inp.msg with
  | MsgType.Timeout =>
      ([Action.logTimeoutError, Action.stopCamera, Action.startCamera], StepRes.next mode)
  | MsgType.Quit => ([], StepRes.brk)
  | MsgType.Unrecognised => ([], StepRes.thrown)
  | MsgType.RequestComplete =>
      match mode with
      | Mode.Viewfinder =>
          let tp := timeoutPassed opts startTime inp.now
          let kp : Bool := decide (inp.key = 99)
          let bp : Bool := decide (inp.button = LineValue.active)
          let printActs : List Action := if inp.key ≠ 0 then [Action.printKey] else []
          if tp || kp || bp then
            ([Action.readKey, Action.readButton] ++ printActs ++
              [Action.stopCamera, Action.teardown, Action.configureStill, Action.startCamera],
             StepRes.next Mode.StillCapturing)
          else
            ([Action.readKey, Action.readButton] ++ printActs ++ [Action.showPreview],
             StepRes.next Mode.Viewfinder)
      | Mode.StillCapturing =>
          ([Action.stopCamera, Action.jpegSave] ++
            (if opts.metadata = "" then []
             else [Action.saveMetadata (save_metadata opts.metadata)]) ++
            [Action.stopCamera, Action.teardown, Action.configureViewfinder, Action.startCamera],
           StepRes.next Mode.Viewfinder)

/-- How a (finite prefix of a) run of the loop ends: the wait blocked with no
further input (`ranOut`), `break` on `Quit` (`broke`), or the
`unrecognised message!` throw (`threw`); each records the mode at that point. -/
inductive LoopOutcome where
  | ranOut (m : Mode)
  | broke (m : Mode)
  | threw (m : Mode)
deriving DecidableEq, Repr

/-- Run the loop over a list of iteration inputs, concatenating the traces. -/
def runLoop (opts : Options) (startTime : Int) : Mode → List LoopInput → List Action × LoopOutcome
  | m, [] => ([], LoopOutcome.ranOut m)
  | m, inp :: rest =>
      let r := loopStep opts startTime m inp
      match r.2 with
      | StepRes.next m' =>
          let r' := runLoop opts startTime m' rest
          (r.1 ++ r'.1, r'.2)
      | StepRes.brk => (r.1, LoopOutcome.broke m)
      | StepRes.thrown => (r.1, LoopOutcome.threw m)

/-- The loop annotated with the mode each iteration starts in, for stating
mode/action invariants. -/
def runSteps (opts : Options) (startTime : Int) : Mode → List LoopInput → List (Mode × List Action)
  | _, [] => []
  | m, inp :: rest =>
      let r := loopStep opts startTime m inp
      match r.2 with
      | StepRes.next m' => (m, r.1) :: runSteps opts startTime m' rest
      | _ => [(m, r.1)]

/-- How `event_loop` (the whole function, lines 76–200) ends. -/
inductive EventLoopResult where
  | earlyReturn
  | returned
  | exception
  | stillRunning
deriving DecidableEq, Repr

/-- Lines 78–81: the calls issued before GPIO acquisition. -/
def preTrace : List Action :=
  [Action.openCamera, Action.configureViewfinder, Action.startCamera]

/-- Lines 76–200: `event_loop`.  After opening the camera and starting the
viewfinder, the GPIO chip is opened and the line requested; either failure is
an immediate `return` (lines 85–88, 108–111) with only a `TODO` comment — no
warning, and on the line-request failure the already-open chip is not closed.
On `break` (Quit) the code falls through to lines 198–199 and releases the
line and closes the chip; on the `throw` (line 134) it does not. -/
def event_loop (opts : Options) (gpio : GpioEnv) (startTime : Int)
    (inputs : List LoopInput) : List Action × EventLoopResult :=
  if gpio.chipAvailable = false then (preTrace, EventLoopResult.earlyReturn)
  else if gpio.lineAvailable = false then
    (preTrace ++ [Action.gpioChipOpen], EventLoopResult.earlyReturn)
  else
    let r := runLoop opts startTime Mode.Viewfinder inputs
    let entered := preTrace ++ [Action.gpioChipOpen, Action.gpioLineRequest]
    match r.2 with
    | LoopOutcome.broke _ =>
        (entered ++ r.1 ++ [Action.gpioLineRelease, Action.gpioChipClose],
         EventLoopResult.returned)
    | LoopOutcome.threw _ => (entered ++ r.1, EventLoopResult.exception)
    | LoopOutcome.ranOut _ => (entered ++ r.1, EventLoopResult.stillRunning)

/-! ## Terminal (termios) model

The terminal configuration is the fields `setup_keyboard` touches:
`c_lflag`, `c_cc[VMIN]`, `c_cc[VTIME]`. -/

/-- The observable terminal configuration. -/
structure Termios where
  lflag : Nat
  vmin : Nat
  vtime : Nat
deriving DecidableEq, Repr

/-- Linux `ICANON` (octal 02). -/
def ICANON : Nat := 2

/-- Linux `ECHO` (octal 010). -/
def ECHO : Nat := 8

/-- `raw.c_lflag &= ~(ICANON | ECHO)` on the 32-bit `c_lflag`. -/
def maskLflag (l : Nat) : Nat := l &&& (2 ^ 32 - 1 - (ICANON ||| ECHO))

/-- Lines 46–58: `setup_keyboard(struct termios orig_termios)`.  The parameter
is received BY VALUE, so `tcgetattr` writes the current configuration `term`
into the function's local copy and the caller's variable is never updated;
the passed-in value `orig_termios` is overwritten before use.  Returned is the
configuration installed by `tcsetattr(STDIN_FILENO, TCSANOW, &raw)`. -/
def setup_keyboard (term : Termios) (orig_termios : Termios) : Termios :=
  let orig := term
  let _ := orig_termios
  { orig with lflag := maskLflag orig.lflag, vmin := 0, vtime := 0 }

/-- Lines 61–63: `restore_keyboard` installs the caller-supplied configuration
via `tcsetattr(STDIN_FILENO, TCSANOW, &orig_termios)`. -/
def restore_keyboard (orig_termios : Termios) : Termios := orig_termios

/-- Lines 202–231 restricted to the terminal state: `main` declares
`struct termios orig_termios` UNINITIALIZED (its indeterminate contents are
`garbage`), calls `setup_keyboard(orig_termios)` — by value, so the variable
keeps `garbage` — and on exit (both the normal path, line 229, and the catch
path, line 226) calls `restore_keyboard(orig_termios)`.  The result is the
terminal configuration in effect when the process exits, given the
configuration `initTerm` in effect at startup. -/
def mainTerminalFinal (initTerm : Termios) (garbage : Termios) : Termios :=
  let _term1 := setup_keyboard initTerm garbage
  restore_keyboard garbage

/-- Modelled from the spec: the Camera Session collaborator's teardown on
destruction.  `MathorcamApp`'s base class `RPiCamApp` (declared in
`core/rpicam_app.hpp`, not under `src/`) stops the session and releases the
device handle when the app object leaves `main`'s `try` scope; §4.1 ("stop
session, release all held device handles") and §7 ("device handle close"). -/
def destructorActions : List Action :=
  [Action.stopCamera, Action.teardown, Action.closeCamera]

/-- Lines 202–231: `main` as a trace plus exit status.  `setup_keyboard` runs
first; a missing output name throws before the loop; otherwise `event_loop`
runs, the app object is destroyed when the `try` scope ends (also during
exception unwind, before the catch body), and `restore_keyboard` runs before
`return`.  Exit status is `none` when the loop is still blocked in `Wait`. -/
def mainRun (opts : Options) (gpio : GpioEnv) (startTime : Int)
    (inputs : List LoopInput) : List Action × Option Int :=
  if opts.output = "" then
    (Action.setupKeyboard :: destructorActions ++ [Action.restoreKeyboard], some (-1))
  else
    let r := event_loop opts gpio startTime inputs
    match r.2 with
    | EventLoopResult.stillRunning => (Action.setupKeyboard :: r.1, none)
    | EventLoopResult.exception =>
        (Action.setupKeyboard :: r.1 ++ destructorActions ++ [Action.restoreKeyboard], some (-1))
    | _ =>
        (Action.setupKeyboard :: r.1 ++ destructorActions ++ [Action.restoreKeyboard], some 0)

/-! ## Concrete values used by counterexamples and witnesses -/

/-- Options with a 5-unit timeout configured, no metadata, an output name. -/
def opts5 : Options := { timeout := 5, metadata := "", output := "out.jpg" }

/-- Both GPIO acquisitions succeed. -/
def gpioOK : GpioEnv := { chipAvailable := true, lineAvailable := true }

/-- The GPIO chip open fails. -/
def gpioNoChip : GpioEnv := { chipAvailable := false, lineAvailable := false }

/-- A completed request with no key and button inactive. -/
def inpFrame : LoopInput :=
  { msg := MsgType.RequestComplete, now := 0, key := 0, button := LineValue.inactive }

/-- A completed request with the key `'c'` (code 99) pending. -/
def inpKeyC : LoopInput :=
  { msg := MsgType.RequestComplete, now := 0, key := 99, button := LineValue.inactive }

/-- A message of a type outside `{Timeout, Quit, RequestComplete}`. -/
def inpBad : LoopInput :=
  { msg := MsgType.Unrecognised, now := 0, key := 0, button := LineValue.inactive }

/-- A `Quit` message. -/
def inpQuit : LoopInput :=
  { msg := MsgType.Quit, now := 0, key := 0, button := LineValue.inactive }

/-! ## Claims -/

/-- C1: on a message of unrecognised type the loop does terminate fatally
(the `throw` at line 134 propagates as an exception), but on that exit path
neither `gpiod_line_request_release` nor `gpiod_chip_close` (lines 198–199)
is ever executed: the GPIO handles are NOT released, contradicting the
claimed release-on-every-exit-path.  Evaluated at a run whose first waited
message is unrecognised. -/
theorem unrecognised_message_leaks_gpio_handles :
    (event_loop opts5 gpioOK 0 [inpBad]).2 = EventLoopResult.exception ∧
    Action.gpioLineRelease ∉ (event_loop opts5 gpioOK 0 [inpBad]).1 ∧
    Action.gpioChipClose ∉ (event_loop opts5 gpioOK 0 [inpBad]).1 ∧
    Action.gpioLineRelease ∉ (mainRun opts5 gpioOK 0 [inpBad]).1 ∧
    Action.gpioChipClose ∉ (mainRun opts5 gpioOK 0 [inpBad]).1 ∧
    (mainRun opts5 gpioOK 0 [inpBad]).2 = some (-1) := by decide

/-- C2: the terminal mode is NOT restored to the pre-existing configuration.
`setup_keyboard` receives `orig_termios` by value (line 46), so `tcgetattr`
fills a local copy and `main`'s uninitialized variable keeps its indeterminate
contents; `restore_keyboard(orig_termios)` then installs that garbage.
Evaluated with the pre-existing configuration `⟨ICANON|ECHO, 1, 0⟩` and
garbage `⟨0, 0, 0⟩`: the final configuration is the garbage, not the
pre-existing one. -/
theorem terminal_mode_not_restored :
    mainTerminalFinal ⟨ICANON ||| ECHO, 1, 0⟩ ⟨0, 0, 0⟩ = ⟨0, 0, 0⟩ ∧
    mainTerminalFinal ⟨ICANON ||| ECHO, 1, 0⟩ ⟨0, 0, 0⟩ ≠ ⟨ICANON ||| ECHO, 1, 0⟩ := by
  decide

/-- C4 counterexample: with configured timeout `T = 5`, session start `0` and
current time `5` — elapsed time exactly `T` — the source's trigger
(line 147, strict `>`) is `false` while the claimed `≥` trigger is `true`. -/
theorem timeout_trigger_differs_at_boundary :
    timeoutPassed opts5 0 5 = false ∧ specTimeoutElapsed opts5 0 5 = true := by decide

/-- C4 (amended): the `timeoutElapsed` trigger is true iff a timeout is
configured (nonzero) AND elapsed time is STRICTLY greater than `T`; with the
timeout unset it is false on every iteration; it never fires at or before
time `T`; and with no key and no button the viewfinder still-capture
transition fires exactly when this trigger does. -/
theorem timeout_trigger_strict (opts : Options) (s now : Int) :
    (timeoutPassed opts s now = true ↔ opts.timeout ≠ 0 ∧ now - s > opts.timeout) ∧
    (opts.timeout = 0 → timeoutPassed opts s now = false) ∧
    (now - s ≤ opts.timeout → timeoutPassed opts s now = false) ∧
    (∀ button : LineValue, button ≠ LineValue.active →
      ((loopStep opts s Mode.Viewfinder
          { msg := MsgType.RequestComplete, now := now, key := 0, button := button }).2 =
        StepRes.next Mode.StillCapturing ↔ timeoutPassed opts s now = true)) := by
  refine ⟨?_, ?_, ?_, ?_⟩
  · simp [timeoutPassed]
  · intro h; simp [timeoutPassed, h]
  · intro h; simp only [timeoutPassed, Bool.and_eq_false_iff, decide_eq_false_iff_not]
    right; omega
  · intro button hb
    rcases htp : timeoutPassed opts s now with _ | _ <;>
      simp [loopStep, htp, hb]

/-- C4 witness: at timeout 5, start 0, now 6 the amended theorem yields the
transition to still capture. -/
theorem timeout_trigger_strict_witness :
    (loopStep opts5 0 Mode.Viewfinder
        { msg := MsgType.RequestComplete, now := 6, key := 0, button := LineValue.inactive }).2 =
      StepRes.next Mode.StillCapturing :=
  ((timeout_trigger_strict opts5 0 6).2.2.2 LineValue.inactive (by decide)).mpr (by decide)

/-- C5: every `Timeout` message is processed by logging, then `StopCamera`,
then `StartCamera` — exactly those calls, so no `Teardown` and no
reconfiguration — and the loop continues in the same mode it was in. -/
theorem timeout_event_restarts_same_mode (opts : Options) (s : Int) (m : Mode)
    (inp : LoopInput) (h : inp.msg = MsgType.Timeout) :
    loopStep opts s m inp =
      ([Action.logTimeoutError, Action.stopCamera, Action.startCamera], StepRes.next m) := by
  obtain ⟨msg, now, key, button⟩ := inp
  cases h
  rfl

/-- C5 witness: a `Timeout` message in viewfinder mode. -/
theorem timeout_event_restarts_same_mode_witness :
    loopStep opts5 0 Mode.Viewfinder
        { msg := MsgType.Timeout, now := 0, key := 0, button := LineValue.inactive } =
      ([Action.logTimeoutError, Action.stopCamera, Action.startCamera],
        StepRes.next Mode.Viewfinder) :=
  timeout_event_restarts_same_mode opts5 0 Mode.Viewfinder _ rfl

/-- C3 counterexample: with the GPIO chip unavailable and a completed-request
message carrying the key `'c'` pending, `event_loop` returns before ever
entering the loop (lines 85–88): the pending event is never processed — no
key read, no capture reconfiguration, no jpeg — and no warning is emitted at
all (the source has only a `TODO` comment), refuting "the event loop still
runs … a warning is emitted exactly once". -/
theorem gpio_failure_skips_event_loop :
    (event_loop opts5 gpioNoChip 0 [inpKeyC]).2 = EventLoopResult.earlyReturn ∧
    Action.readKey ∉ (event_loop opts5 gpioNoChip 0 [inpKeyC]).1 ∧
    Action.configureStill ∉ (event_loop opts5 gpioNoChip 0 [inpKeyC]).1 ∧
    Action.jpegSave ∉ (event_loop opts5 gpioNoChip 0 [inpKeyC]).1 ∧
    (event_loop opts5 gpioNoChip 0 [inpKeyC]).1.count Action.warnGpio = 0 := by decide

/-- C3 (amended): if acquisition of the GPIO chip or line fails at loop
entry, `event_loop` returns immediately: the loop body never runs, no events
are processed and no capture of any kind can occur, and no warning is emitted;
the failure is not fatal to the process (no exception — `main` exits with
status 0), but time/key-triggered captures are prevented. -/
theorem gpio_failure_returns_early (opts : Options) (gpio : GpioEnv) (s : Int)
    (inputs : List LoopInput) (hout : opts.output ≠ "")
    (hfail : gpio.chipAvailable = false ∨ gpio.lineAvailable = false) :
    (event_loop opts gpio s inputs).2 = EventLoopResult.earlyReturn ∧
    (∀ a ∈ (event_loop opts gpio s inputs).1, a ∈ preTrace ++ [Action.gpioChipOpen]) ∧
    (mainRun opts gpio s inputs).2 = some 0 ∧
    (mainRun opts gpio s inputs).1.count Action.warnGpio = 0 := by
  obtain ⟨chip, line⟩ := gpio
  rcases hfail with h | h
  · subst h
    cases line <;> simp_all [event_loop, mainRun, preTrace, destructorActions]
  · subst h
    cases chip <;> simp_all [event_loop, mainRun, preTrace, destructorActions]

/-- C3 witness: chip unavailable, no pending events. -/
theorem gpio_failure_returns_early_witness :
    (event_loop opts5 gpioNoChip 0 []).2 = EventLoopResult.earlyReturn ∧
    (∀ a ∈ (event_loop opts5 gpioNoChip 0 []).1, a ∈ preTrace ++ [Action.gpioChipOpen]) ∧
    (mainRun opts5 gpioNoChip 0 []).2 = some 0 ∧
    (mainRun opts5 gpioNoChip 0 []).1.count Action.warnGpio = 0 :=
  gpio_failure_returns_early opts5 gpioNoChip 0 [] (by decide) (Or.inl rfl)

/-- The camera lifecycle calls, for projecting a trace onto the
stop/teardown/reconfigure/start discipline. -/
def isLifecycle : Action → Bool
  | Action.stopCamera => true
  | Action.teardown => true
  | Action.configureStill => true
  | Action.configureViewfinder => true
  | Action.startCamera => true
  | _ => false

/-- C6 counterexample: the still-to-viewfinder iteration calls `StopCamera`
twice (lines 166 and 191), so its lifecycle-call sequence is
`stop, stop, teardown, configure-viewfinder, start` — not exactly
`stop, teardown, reconfigure, start` as claimed. -/
theorem still_transition_stops_twice :
    (loopStep opts5 0 Mode.StillCapturing inpFrame).1.filter isLifecycle =
      [Action.stopCamera, Action.stopCamera, Action.teardown,
        Action.configureViewfinder, Action.startCamera] ∧
    (loopStep opts5 0 Mode.StillCapturing inpFrame).1.filter isLifecycle ≠
      [Action.stopCamera, Action.teardown, Action.configureViewfinder,
        Action.startCamera] := by decide

/-- C6 (amended): the viewfinder-to-still transition performs exactly
`stop, teardown, configure-still, start`; the still-to-viewfinder transition
performs those same calls in that order but with an additional `stop` issued
at entry to the still branch (before the encode), so its lifecycle sequence is
`stop, stop, teardown, configure-viewfinder, start`; the encode/write of the
captured buffer occurs strictly after the first `stop` of the still pipeline
and strictly before `teardown` (the trace is
`stop, jpeg-save, [metadata], stop, teardown, configure-viewfinder, start`). -/
theorem transition_call_sequences (opts : Options) (s : Int) (inp : LoopInput)
    (h : inp.msg = MsgType.RequestComplete) :
    ((timeoutPassed opts s inp.now || decide (inp.key = 99) ||
        decide (inp.button = LineValue.active)) = true →
      (loopStep opts s Mode.Viewfinder inp).1.filter isLifecycle =
        [Action.stopCamera, Action.teardown, Action.configureStill, Action.startCamera]) ∧
    ((loopStep opts s Mode.StillCapturing inp).1.filter isLifecycle =
      [Action.stopCamera, Action.stopCamera, Action.teardown,
        Action.configureViewfinder, Action.startCamera]) ∧
    (∃ rest, (loopStep opts s Mode.StillCapturing inp).1 =
      Action.stopCamera :: Action.jpegSave :: rest ∧ Action.teardown ∈ rest) := by
  obtain ⟨msg, now, key, button⟩ := inp
  cases h
  refine ⟨?_, ?_, ?_⟩
  · intro hfire
    simp only [loopStep] at *
    rw [hfire]
    by_cases hk : key ≠ 0 <;> simp [hk, isLifecycle]
  · by_cases hm : opts.metadata = "" <;> simp [loopStep, hm, isLifecycle]
  · by_cases hm : opts.metadata = "" <;> simp [loopStep, hm]

/-- C6 witness: key `'c'` fires the viewfinder-to-still transition with
exactly `stop, teardown, configure-still, start`. -/
theorem transition_call_sequences_witness :
    (loopStep opts5 0 Mode.Viewfinder inpKeyC).1.filter isLifecycle =
      [Action.stopCamera, Action.teardown, Action.configureStill, Action.startCamera] :=
  (transition_call_sequences opts5 0 inpKeyC rfl).1 (by decide)

/-- C9: in the still-capture iteration the image write (`jpeg_save`) happens
first — immediately after the branch-entry `stop`, before anything else, so no
later metadata failure can affect it; a metadata record is written iff the
metadata option is non-empty; when written, the destination is standard output
exactly when the configured path is the sentinel `"-"`, and otherwise the
named file. -/
theorem metadata_written_iff_configured (opts : Options) (s : Int) (inp : LoopInput)
    (h : inp.msg = MsgType.RequestComplete) :
    (∃ rest, (loopStep opts s Mode.StillCapturing inp).1 =
      Action.stopCamera :: Action.jpegSave :: rest) ∧
    ((∃ d, Action.saveMetadata d ∈ (loopStep opts s Mode.StillCapturing inp).1) ↔
      opts.metadata ≠ "") ∧
    (opts.metadata ≠ "" →
      (Action.saveMetadata MetaDest.stdoutDest ∈ (loopStep opts s Mode.StillCapturing inp).1 ↔
        opts.metadata = "-")) ∧
    (opts.metadata ≠ "" → opts.metadata ≠ "-" →
      Action.saveMetadata (MetaDest.fileDest opts.metadata) ∈
        (loopStep opts s Mode.StillCapturing inp).1) := by
  obtain ⟨msg, now, key, button⟩ := inp
  cases h
  refine ⟨?_, ?_, ?_, ?_⟩
  · by_cases hm : opts.metadata = "" <;> simp [loopStep, hm]
  · by_cases hm : opts.metadata = "" <;> simp [loopStep, hm]
  · intro hm
    by_cases hd : opts.metadata = "-" <;> simp [loopStep, save_metadata, hm, hd]
  · intro hm hd
    simp [loopStep, save_metadata, hm, hd]

/-- C9 witness: with metadata destination `"-"`, a metadata record to standard
output is present in the still-capture trace. -/
theorem metadata_written_iff_configured_witness :
    Action.saveMetadata MetaDest.stdoutDest ∈
      (loopStep { timeout := 0, metadata := "-", output := "out.jpg" } 0
        Mode.StillCapturing inpFrame).1 :=
  ((metadata_written_iff_configured { timeout := 0, metadata := "-", output := "out.jpg" }
      0 inpFrame rfl).2.2.1 (by decide)).mpr rfl

/-- Per-iteration mode discipline: an iteration whose trace contains the
encode call started in still-capture mode, and one whose trace contains a
preview forward started in viewfinder mode. -/
theorem loopStep_actions_match_mode (opts : Options) (s : Int) (m : Mode) (inp : LoopInput) :
    (Action.jpegSave ∈ (loopStep opts s m inp).1 → m = Mode.StillCapturing) ∧
    (Action.showPreview ∈ (loopStep opts s m inp).1 → m = Mode.Viewfinder) := by
  obtain ⟨msg, now, key, button⟩ := inp
  cases msg <;> cases m <;>
    refine ⟨fun hmem => ?_, fun hmem => ?_⟩ <;>
      first
        | rfl
        | (simp only [loopStep] at hmem
           try split_ifs at hmem
           all_goals simp_all)

/-- The mode discipline lifted to whole runs, from any starting mode. -/
theorem runSteps_actions_match_mode (opts : Options) (s : Int) :
    ∀ (inputs : List LoopInput) (m₀ : Mode), ∀ p ∈ runSteps opts s m₀ inputs,
      (Action.jpegSave ∈ p.2 → p.1 = Mode.StillCapturing) ∧
      (Action.showPreview ∈ p.2 → p.1 = Mode.Viewfinder) := by
  intro inputs
  induction inputs with
  | nil => intro m₀ p hp; simp [runSteps] at hp
  | cons i rest ih =>
      intro m₀ p hp
      have hhead := loopStep_actions_match_mode opts s m₀ i
      rcases hstep : loopStep opts s m₀ i with ⟨acts, res⟩
      rw [hstep] at hhead
      simp only [runSteps, hstep] at hp
      cases res with
      | next m' =>
          rcases List.mem_cons.mp hp with h | h
          · subst h; exact hhead
          · exact ih m' p h
      | brk =>
          rcases List.mem_singleton.mp hp with h
          subst h; exact hhead
      | thrown =>
          rcases List.mem_singleton.mp hp with h
          subst h; exact hhead

/-- C7: over any run whose events contain no `Quit`, starting in viewfinder
mode, every iteration that issues the encode call (`jpeg_save`) is in
still-capture mode and every iteration that forwards a frame to the live
preview is in viewfinder mode. -/
theorem no_encode_in_viewfinder_no_preview_in_still (opts : Options) (s : Int)
    (inputs : List LoopInput) (hnq : ∀ i ∈ inputs, i.msg ≠ MsgType.Quit) :
    ∀ p ∈ runSteps opts s Mode.Viewfinder inputs,
      (Action.jpegSave ∈ p.2 → p.1 = Mode.StillCapturing) ∧
      (Action.showPreview ∈ p.2 → p.1 = Mode.Viewfinder) :=
  fun p hp => runSteps_actions_match_mode opts s inputs Mode.Viewfinder p hp

/-- C7 witness: in the run `key-press then frame`, the iteration that encodes
is the still-capture one. -/
theorem no_encode_in_viewfinder_no_preview_in_still_witness :
    ((Mode.StillCapturing,
        [Action.stopCamera, Action.jpegSave, Action.stopCamera, Action.teardown,
          Action.configureViewfinder, Action.startCamera]) : Mode × List Action).1 =
      Mode.StillCapturing :=
  (no_encode_in_viewfinder_no_preview_in_still opts5 0 [inpKeyC, inpFrame] (by decide)
      (Mode.StillCapturing,
        [Action.stopCamera, Action.jpegSave, Action.stopCamera, Action.teardown,
          Action.configureViewfinder, Action.startCamera])
      (by decide)).1 (by decide)

/-- No loop iteration ever issues the final-release calls: the GPIO release
and chip close, the keyboard restore, and the device-handle close happen only
outside the loop. -/
theorem loopStep_no_final_release (opts : Options) (s : Int) (m : Mode) (inp : LoopInput) :
    Action.gpioLineRelease ∉ (loopStep opts s m inp).1 ∧
    Action.restoreKeyboard ∉ (loopStep opts s m inp).1 ∧
    Action.closeCamera ∉ (loopStep opts s m inp).1 := by
  obtain ⟨msg, now, key, button⟩ := inp
  cases msg <;> cases m <;>
    refine ⟨fun h => ?_, fun h => ?_, fun h => ?_⟩ <;>
      (simp only [loopStep] at h
       try split_ifs at h
       all_goals simp_all)

/-- The final-release calls never occur in any run of the loop body. -/
theorem runLoop_no_final_release (opts : Options) (s : Int) :
    ∀ (inputs : List LoopInput) (m : Mode),
      Action.gpioLineRelease ∉ (runLoop opts s m inputs).1 ∧
      Action.restoreKeyboard ∉ (runLoop opts s m inputs).1 ∧
      Action.closeCamera ∉ (runLoop opts s m inputs).1 := by
  intro inputs
  induction inputs with
  | nil => intro m; simp [runLoop]
  | cons i rest ih =>
      intro m
      have hhead := loopStep_no_final_release opts s m i
      rcases hstep : loopStep opts s m i with ⟨acts, res⟩
      rw [hstep] at hhead
      cases res with
      | next m' =>
          have hr := ih m'
          simp only [runLoop, hstep]
          simp_all [List.mem_append]
      | brk => simp only [runLoop, hstep]; simp_all
      | thrown => simp only [runLoop, hstep]; simp_all

/-- A message that is neither `Quit` nor unrecognised always continues the
loop. -/
theorem loopStep_next_of_benign (opts : Options) (s : Int) (m : Mode) (inp : LoopInput)
    (h1 : inp.msg ≠ MsgType.Quit) (h2 : inp.msg ≠ MsgType.Unrecognised) :
    ∃ m', (loopStep opts s m inp).2 = StepRes.next m' := by
  obtain ⟨msg, now, key, button⟩ := inp
  cases msg
  · exact ⟨m, rfl⟩
  · exact absurd rfl h1
  · cases m
    · simp only [loopStep]
      split
      · exact ⟨Mode.StillCapturing, rfl⟩
      · exact ⟨Mode.Viewfinder, rfl⟩
    · exact ⟨Mode.Viewfinder, rfl⟩
  · exact absurd rfl h2

/-- If the messages before a `Quit` are all benign, the run ends by `break`. -/
theorem runLoop_breaks_on_quit (opts : Options) (s : Int) :
    ∀ (pre : List LoopInput) (q : LoopInput) (rest : List LoopInput) (m : Mode),
      (∀ i ∈ pre, i.msg ≠ MsgType.Quit ∧ i.msg ≠ MsgType.Unrecognised) →
      q.msg = MsgType.Quit →
      ∃ m', (runLoop opts s m (pre ++ q :: rest)).2 = LoopOutcome.broke m' := by
  intro pre
  induction pre with
  | nil =>
      intro q rest m _ hq
      obtain ⟨msg, now, key, button⟩ := q
      cases hq
      exact ⟨m, rfl⟩
  | cons i pre ih =>
      intro q rest m hpre hq
      obtain ⟨m', hm'⟩ :=
        loopStep_next_of_benign opts s m i (hpre i (by simp)).1 (hpre i (by simp)).2
      rcases hstep : loopStep opts s m i with ⟨acts, res⟩
      rw [hstep] at hm'
      simp only at hm'
      subst hm'
      simp only [List.cons_append, runLoop, hstep]
      exact ih q rest m' (fun j hj => hpre j (by simp [hj])) hq

/-- C8: with GPIO acquired and the output option set, a run whose messages
are benign until a `Quit` arrives (in whatever mode): the `Quit` iteration
itself issues no call at all — no trigger read, no transition — before
breaking; over the whole process trace the GPIO line release and the keyboard
restore each occur exactly once; the session teardown (device close) occurs;
and the process exits with status 0. -/
theorem quit_released_exactly_once (opts : Options) (gpio : GpioEnv) (s : Int)
    (pre rest : List LoopInput) (q : LoopInput)
    (hout : opts.output ≠ "")
    (hchip : gpio.chipAvailable = true) (hline : gpio.lineAvailable = true)
    (hq : q.msg = MsgType.Quit)
    (hpre : ∀ i ∈ pre, i.msg ≠ MsgType.Quit ∧ i.msg ≠ MsgType.Unrecognised) :
    (∀ m, loopStep opts s m q = ([], StepRes.brk)) ∧
    (mainRun opts gpio s (pre ++ q :: rest)).1.count Action.gpioLineRelease = 1 ∧
    (mainRun opts gpio s (pre ++ q :: rest)).1.count Action.restoreKeyboard = 1 ∧
    Action.closeCamera ∈ (mainRun opts gpio s (pre ++ q :: rest)).1 ∧
    (mainRun opts gpio s (pre ++ q :: rest)).2 = some 0 := by
  have hstepq : ∀ m, loopStep opts s m q = ([], StepRes.brk) := by
    intro m
    obtain ⟨msg, now, key, button⟩ := q
    cases hq
    rfl
  obtain ⟨m', hbroke⟩ := runLoop_breaks_on_quit opts s pre q rest Mode.Viewfinder hpre hq
  have h1 := (runLoop_no_final_release opts s (pre ++ q :: rest) Mode.Viewfinder).1
  have h2 := (runLoop_no_final_release opts s (pre ++ q :: rest) Mode.Viewfinder).2.1
  have h3 := (runLoop_no_final_release opts s (pre ++ q :: rest) Mode.Viewfinder).2.2
  refine ⟨hstepq, ?_, ?_, ?_, ?_⟩ <;>
    simp [mainRun, event_loop, hchip, hline, hbroke, hout, preTrace, destructorActions,
      List.count_append, List.count_cons, List.count_eq_zero.mpr h1,
      List.count_eq_zero.mpr h2, List.count_eq_zero.mpr h3]

/-- C8 witness: one viewfinder frame, then `Quit`. -/
theorem quit_released_exactly_once_witness :
    (mainRun opts5 gpioOK 0 [inpFrame, inpQuit]).2 = some 0 :=
  (quit_released_exactly_once opts5 gpioOK 0 [inpFrame] [] inpQuit (by decide) rfl rfl rfl
      (by decide)).2.2.2.2

/-- C10: `start_time` is a fixed parameter assigned before the loop (line 81)
and threaded unchanged through every iteration; hence once a configured
timeout has strictly elapsed at some completed-request iteration, that
iteration transitions viewfinder → still-capture, and so does EVERY
completed-request viewfinder iteration at the same or any later clock
reading. -/
theorem timeout_latches_after_elapsed (opts : Options) (s : Int) (inp : LoopInput)
    (hT : opts.timeout ≠ 0) (hmsg : inp.msg = MsgType.RequestComplete)
    (helapsed : inp.now - s > opts.timeout) :
    (loopStep opts s Mode.Viewfinder inp).2 = StepRes.next Mode.StillCapturing ∧
    ∀ inp' : LoopInput, inp'.msg = MsgType.RequestComplete → inp.now ≤ inp'.now →
      (loopStep opts s Mode.Viewfinder inp').2 = StepRes.next Mode.StillCapturing := by
  have key : ∀ j : LoopInput, j.msg = MsgType.RequestComplete → j.now - s > opts.timeout →
      (loopStep opts s Mode.Viewfinder j).2 = StepRes.next Mode.StillCapturing := by
    intro j hj hgt
    obtain ⟨msg, now, k, b⟩ := j
    cases hj
    have htp : timeoutPassed opts s now = true := by
      simp only [timeoutPassed, Bool.and_eq_true, decide_eq_true_iff]
      exact ⟨hT, hgt⟩
    simp [loopStep, htp]
  exact ⟨key inp hmsg helapsed, fun inp' h1 h2 => key inp' h1 (by omega)⟩

/-- C10 witness: timeout 5, start 0, clock reading 7. -/
theorem timeout_latches_after_elapsed_witness :
    (loopStep opts5 0 Mode.Viewfinder
        { msg := MsgType.RequestComplete, now := 7, key := 0, button := LineValue.inactive }).2 =
      StepRes.next Mode.StillCapturing :=
  (timeout_latches_after_elapsed opts5 0
      { msg := MsgType.RequestComplete, now := 7, key := 0, button := LineValue.inactive }
      (by decide) rfl (by decide)).1

end Mathorcam
